import Mathlib

/-!
Shallow embedding of the email-assistant backend core
(sync-and-summarize pipeline) and proofs about it.

Source files embedded:
- src/llm/summarizer.js   (rules-based complexity check, two-tier router)
- src/llm/openaiClient.js (model client with fallback on failure)
- src/store/cache.js      (content-addressed summary cache, eviction)
- src/providers/outlook.js (Outlook and Gmail adapters, marketing filter)
- src/server.js           (scheduled sync pipeline)

JS strings are modelled as Lean String / List Char; JS numbers used as
integral timestamps are modelled as Int; 32-bit words inside SHA-256 are
modelled as Nat reduced mod 2 ^ 32; async functions become pure functions
over explicit oracle or outcome parameters; a thrown-and-caught JS
exception becomes an Except value consumed inside the embedded function.
-/

/-! ### JS string primitives -/

/-- JS String.prototype.toLowerCase, modelled characterwise with the ASCII
case folding of Char.toLower. -/
def lowerChars (s : List Char) : List Char := s.map Char.toLower

/-- The first list is a leading segment of the second. -/
def isPrefixChars : List Char → List Char → Bool
  | [], _ => true
  | _ :: _, [] => false
  | c :: cs, d :: ds => c = d && isPrefixChars cs ds

/-- JS String.prototype.includes: needle occurs contiguously inside hay. -/
def containsSub (hay needle : List Char) : Bool :=
  match hay with
  | [] => needle.isEmpty
  | _ :: rest => isPrefixChars needle hay || containsSub rest needle

/-- The ASCII portion of the JS regex whitespace class. -/
def isSpaceJS (c : Char) : Bool :=
  c = ' ' || c = '\t' || c = '\n' || c = '\r' || c = '\x0b' || c = '\x0c'

/-! ### Counting multiline anchored regex matches

The two list-marker regexes of rulesBasedComplexityCheck have the shape
`^ \s* CORE` with the m and g flags: a match may begin only at the string
start or right after a newline, consumes the whitespace run plus what CORE
consumes (CORE always ends by consuming exactly one whitespace character),
and the scan resumes after the consumed text. -/

/-- CORE of the bullet regex: one of the three marker characters followed by
one whitespace character. Returns whether the last consumed character was a
newline, and the remaining input. -/
def matchBulletCore : List Char → Option (Bool × List Char)
  | c :: d :: rest =>
    if (c = '-' || c = '*' || c = '•') && isSpaceJS d then
      some (d = '\n', rest)
    else none
  | _ => none

/-- CORE of the numbered-list regex: one or more digits, a dot, then one
whitespace character. -/
def matchNumberCore (l : List Char) : Option (Bool × List Char) :=
  match l.takeWhile Char.isDigit, l.dropWhile Char.isDigit with
  | [], _ => none
  | _ :: _, '.' :: d :: rest => if isSpaceJS d then some (d = '\n', rest) else none
  | _, _ => none

/-- Attempt the anchored pattern (whitespace run, then CORE) at one
line-start position. -/
def matchAt (core : List Char → Option (Bool × List Char)) (l : List Char) :
    Option (Bool × List Char) :=
  core (l.dropWhile isSpaceJS)

/-- Fuel-driven global scan: try the anchored pattern at each line-start
position, jumping over consumed text on success, advancing one character on
failure. Every successful match consumes at least one character, so a fuel
of one more than the input length always suffices. -/
def scanCountAux (core : List Char → Option (Bool × List Char)) :
    Nat → List Char → Bool → Nat
  | 0, _, _ => 0
  | _ + 1, [], _ => 0
  | fuel + 1, c :: rest, atLineStart =>
    if atLineStart then
      match matchAt core (c :: rest) with
      | some (nl, remaining) => 1 + scanCountAux core fuel remaining nl
      | none => scanCountAux core fuel rest (c = '\n')
    else
      scanCountAux core fuel rest (c = '\n')

/-- Number of non-overlapping matches of the anchored multiline pattern. -/
def scanCount (core : List Char → Option (Bool × List Char))
    (l : List Char) : Nat :=
  scanCountAux core (l.length + 1) l true

/-! ### src/llm/summarizer.js -/

/-- The fixed complex-domain keyword list of rulesBasedComplexityCheck. -/
def complexKeywords : List String :=
  ["contract", "legal", "agreement", "terms and conditions",
   "technical issue", "bug report", "error log", "stack trace",
   "financial statement", "invoice", "payment terms",
   "multi-step", "detailed instructions", "comprehensive"]

/-- combinedText: subject, a space, and body, lowercased. -/
def combinedText (subject body : String) : List Char :=
  lowerChars (subject.data ++ [' '] ++ body.data)

/-- Number of question marks in the combined text. -/
def questionCount (subject body : String) : Nat :=
  (combinedText subject body).count '?'

/-- Whether some complex-domain keyword occurs in the combined text. -/
def keywordHit (subject body : String) : Bool :=
  complexKeywords.any (fun kw => containsSub (combinedText subject body) kw.data)

/-- Number of bullet-marker lines of the body. -/
def bulletCount (body : String) : Nat := scanCount matchBulletCore body.data

/-- Number of numbered-list lines of the body. -/
def numberCount (body : String) : Nat := scanCount matchNumberCore body.data

/-- rulesBasedComplexityCheck from src/llm/summarizer.js: the four early
returns in source order (length, questions, keywords, list markers). -/
def rulesBasedComplexityCheck (subject body : String) : Bool :=
  if body.length > 1500 then true
  else if questionCount subject body ≥ 3 then true
  else if keywordHit subject body then true
  else if bulletCount body ≥ 5 || numberCount body ≥ 5 then true
  else false

/-! ### src/llm/openaiClient.js -/

/-- The structured object the prompt contract requires from the model, and
the shape of the fallback object. -/
structure ModelResult where
  summary_bullets : List String
  action_items : List String
  urgency : String
  needs_mid_tier : Bool
  why : String
deriving DecidableEq

/-- The deterministic fallback object returned by callOpenAI on failure. -/
def fallbackResult : ModelResult :=
  { summary_bullets := ["Unable to summarize - API error"]
    action_items := []
    urgency := "low"
    needs_mid_tier := false
    why := "" }

/-- callOpenAI from src/llm/openaiClient.js. The network request is
modelled by its outcome (an Except carrying the raw response content) and
JSON.parse by a parsing function on that content; the try/catch covering
both is the match. The function is total: no failure escapes it. -/
def callOpenAI (transport : Except String String)
    (parseJson : String → Except String ModelResult) : ModelResult :=
  match transport with
  | .error _ => fallbackResult
  | .ok content =>
    match parseJson content with
    | .error _ => fallbackResult
    | .ok r => r

/-! ### The router (summarizeEmail) -/

/-- Which model tier a call went to. -/
inductive Tier
  | mini
  | mid
deriving DecidableEq

/-- The object summarizeEmail returns: the JS spread of a ModelResult with
the routing tags. model_reason is absent (none) except on the
model-requested path. -/
structure RoutingResult where
  summary_bullets : List String
  action_items : List String
  urgency : String
  needs_mid_tier : Bool
  why : String
  used_mid_tier : Bool
  escalation_reason : Option String
  model_reason : Option String
deriving DecidableEq

/-- The JS spread: copy the model fields, set the routing tags. -/
def mkRouted (r : ModelResult) (used : Bool) (esc : Option String)
    (mr : Option String) : RoutingResult :=
  { summary_bullets := r.summary_bullets
    action_items := r.action_items
    urgency := r.urgency
    needs_mid_tier := r.needs_mid_tier
    why := r.why
    used_mid_tier := used
    escalation_reason := esc
    model_reason := mr }

/-- summarizeEmail from src/llm/summarizer.js, instrumented with the list
of tier calls it performs, in order. callMini and callMid stand for the
two model-client entry points. -/
def summarizeEmailT (callMini callMid : String → String → ModelResult)
    (subject body : String) : RoutingResult × List Tier :=
  if rulesBasedComplexityCheck subject body then
    (mkRouted (callMid subject body) true (some "rules_based") none, [Tier.mid])
  else
    let miniResult := callMini subject body
    if miniResult.needs_mid_tier = true then
      (mkRouted (callMid subject body) true (some "model_requested")
        (some miniResult.why), [Tier.mini, Tier.mid])
    else
      (mkRouted miniResult false none none, [Tier.mini])

/-- The result summarizeEmail returns (first component of the
instrumented function). -/
def summarizeEmail (callMini callMid : String → String → ModelResult)
    (subject body : String) : RoutingResult :=
  (summarizeEmailT callMini callMid subject body).1

/-! ### SHA-256 (crypto.createHash of src/store/cache.js)

A direct executable model of FIPS 180-4 SHA-256 over byte lists, with
32-bit words as Nat reduced mod 2 ^ 32. -/

/-- Reduce to a 32-bit word. -/
def w32 (n : Nat) : Nat := n % 4294967296

/-- Right rotation of a 32-bit word. -/
def rotr32 (n x : Nat) : Nat := w32 ((x >>> n) ||| (x <<< (32 - n)))

def bigSigma0 (x : Nat) : Nat := rotr32 2 x ^^^ rotr32 13 x ^^^ rotr32 22 x

def bigSigma1 (x : Nat) : Nat := rotr32 6 x ^^^ rotr32 11 x ^^^ rotr32 25 x

def smallSigma0 (x : Nat) : Nat := rotr32 7 x ^^^ rotr32 18 x ^^^ (x >>> 3)

def smallSigma1 (x : Nat) : Nat := rotr32 17 x ^^^ rotr32 19 x ^^^ (x >>> 10)

/-- Ch, with 32-bit complement as xor against the all-ones word. -/
def chF (x y z : Nat) : Nat := (x &&& y) ^^^ ((x ^^^ 4294967295) &&& z)

def majF (x y z : Nat) : Nat := (x &&& y) ^^^ (x &&& z) ^^^ (y &&& z)

/-- The 64 round constants. -/
def sha256K : List Nat :=
  [1116352408, 1899447441, 3049323471, 3921009573, 961987163,
   1508970993, 2453635748, 2870763221, 3624381080, 310598401,
   607225278, 1426881987, 1925078388, 2162078206, 2614888103,
   3248222580, 3835390401, 4022224774, 264347078, 604807628,
   770255983, 1249150122, 1555081692, 1996064986, 2554220882,
   2821834349, 2952996808, 3210313671, 3336571891, 3584528711,
   113926993, 338241895, 666307205, 773529912, 1294757372,
   1396182291, 1695183700, 1986661051, 2177026350, 2456956037,
   2730485921, 2820302411, 3259730800, 3345764771, 3516065817,
   3600352804, 4094571909, 275423344, 430227734, 506948616,
   659060556, 883997877, 958139571, 1322822218, 1537002063,
   1747873779, 1955562222, 2024104815, 2227730452, 2361852424,
   2428436474, 2756734187, 3204031479, 3329325298]

/-- The initial hash value. -/
def sha256Init : List Nat :=
  [1779033703, 3144134277, 1013904242, 2773480762,
   1359893119, 2600822924, 528734635, 1541459225]

/-- Big-endian byte decomposition of a number into the given width. -/
def natToBytesBE : Nat → Nat → List Nat
  | 0, _ => []
  | k + 1, n => natToBytesBE k (n >>> 8) ++ [n % 256]

/-- Append the 0x80 marker, the zero padding and the 64-bit big-endian
bit-length so that the total length is a multiple of 64 bytes. -/
def sha256Pad (msg : List Nat) : List Nat :=
  msg ++ [128] ++ List.replicate ((64 - ((msg.length + 9) % 64)) % 64) 0 ++
    natToBytesBE 8 (msg.length * 8)

/-- Big-endian 4-byte groups to 32-bit words. -/
def bytesToWords : List Nat → List Nat
  | b0 :: b1 :: b2 :: b3 :: rest =>
    (((b0 <<< 24) ||| (b1 <<< 16)) ||| ((b2 <<< 8) ||| b3)) :: bytesToWords rest
  | _ => []

/-- Split into 64-byte blocks (fuel-driven; a fuel equal to the input
length always suffices). -/
def chunks64Aux : Nat → List Nat → List (List Nat)
  | 0, _ => []
  | _ + 1, [] => []
  | fuel + 1, x :: rest => (x :: rest).take 64 :: chunks64Aux fuel ((x :: rest).drop 64)

/-- The next word of the message schedule, from the words so far. -/
def nextScheduleWord (ws : List Nat) : Nat :=
  w32 (w32 (smallSigma1 (ws.getD (ws.length - 2) 0) + ws.getD (ws.length - 7) 0) +
    w32 (smallSigma0 (ws.getD (ws.length - 15) 0) + ws.getD (ws.length - 16) 0))

/-- Extend the schedule the given number of times. -/
def extendSchedule : List Nat → Nat → List Nat
  | ws, 0 => ws
  | ws, k + 1 => extendSchedule (ws ++ [nextScheduleWord ws]) k

/-- One compression round on the eight-word state. -/
def compressRound (st : List Nat) (kw : Nat × Nat) : List Nat :=
  let a := st.getD 0 0
  let b := st.getD 1 0
  let c := st.getD 2 0
  let d := st.getD 3 0
  let e := st.getD 4 0
  let f := st.getD 5 0
  let g := st.getD 6 0
  let h := st.getD 7 0
  let t1 := w32 (w32 (h + bigSigma1 e) + w32 (chF e f g + w32 (kw.1 + kw.2)))
  let t2 := w32 (bigSigma0 a + majF a b c)
  [w32 (t1 + t2), a, b, c, w32 (d + t1), e, f, g]

/-- Process one 64-byte chunk. -/
def compressChunk (h : List Nat) (chunk : List Nat) : List Nat :=
  let ws := extendSchedule (bytesToWords chunk) 48
  let st := (sha256K.zip ws).foldl compressRound h
  (h.zip st).map (fun p => w32 (p.1 + p.2))

/-- The eight 32-bit digest words of a byte message. -/
def sha256Words (msg : List Nat) : List Nat :=
  (chunks64Aux (sha256Pad msg).length (sha256Pad msg)).foldl compressChunk sha256Init

/-- The 32 digest bytes. -/
def sha256Bytes (msg : List Nat) : List Nat :=
  ((sha256Words msg).map (natToBytesBE 4)).flatten

/-- UTF-8 encoding of one character. -/
def utf8EncodeChar (c : Char) : List Nat :=
  let n := c.toNat
  if n < 128 then [n]
  else if n < 2048 then [192 ||| (n >>> 6), 128 ||| (n &&& 63)]
  else if n < 65536 then
    [224 ||| (n >>> 12), 128 ||| ((n >>> 6) &&& 63), 128 ||| (n &&& 63)]
  else
    [240 ||| (n >>> 18), 128 ||| ((n >>> 12) &&& 63),
     128 ||| ((n >>> 6) &&& 63), 128 ||| (n &&& 63)]

/-- The UTF-8 bytes of a string (crypto hash update reads the body as a
UTF-8 buffer). -/
def strBytes (s : String) : List Nat := (s.data.map utf8EncodeChar).flatten

/-- Lowercase hex digit of a value below sixteen. -/
def hexDigit (n : Nat) : Char :=
  if n < 10 then Char.ofNat (48 + n) else Char.ofNat (87 + n)

/-- Lowercase hex rendering of a byte list. -/
def bytesToHex (bs : List Nat) : List Char :=
  (bs.map (fun b => [hexDigit (b >>> 4), hexDigit (b % 16)])).flatten

/-! ### src/store/cache.js -/

/-- hashBody: the hex SHA-256 digest of the body, truncated to its first
16 characters. -/
def hashBody (body : String) : String :=
  String.mk ((bytesToHex (sha256Bytes (strBytes body))).take 16)

/-- getCacheKey: provider, messageId and body fingerprint joined by
colons. -/
def getCacheKey (provider messageId body : String) : String :=
  provider ++ ":" ++ messageId ++ ":" ++ hashBody body

/-- A stored cache entry: the summary object spread together with the
cachedAt timestamp. Timestamps are milliseconds since the epoch (the
source stores an ISO string and parses it back with Date.getTime). -/
structure CacheEntry where
  result : RoutingResult
  cachedAt : Int
deriving DecidableEq

/-- db.data.summaries: an association list from cache keys to entries. -/
abbrev SummaryStore := List (String × CacheEntry)

/-- getCached: the entry stored under the derived key, or none. -/
def getCached (store : SummaryStore) (provider messageId body : String) :
    Option CacheEntry :=
  (store.find? (fun p => p.1 == getCacheKey provider messageId body)).map Prod.snd

/-- setCached: insert or overwrite the entry for the derived key,
stamping cachedAt with the present time. -/
def setCached (now : Int) (store : SummaryStore)
    (provider messageId body : String) (summary : RoutingResult) : SummaryStore :=
  (getCacheKey provider messageId body,
    { result := summary, cachedAt := now }) ::
    store.filter (fun p => !(p.1 == getCacheKey provider messageId body))

/-- Thirty days in milliseconds. -/
def thirtyDaysMs : Int := 30 * 24 * 60 * 60 * 1000

/-- cleanOldCache: delete every entry whose cachedAt timestamp lies
before now minus thirty days. -/
def cleanOldCache (now : Int) (store : SummaryStore) : SummaryStore :=
  store.filter (fun p => !(decide (p.2.cachedAt < now - thirtyDaysMs)))

/-! ### src/providers/outlook.js (Outlook and Gmail adapters) -/

/-- The marketing keyword list shared by both provider filters. -/
def marketingKeywords : List String :=
  ["unsubscribe", "noreply", "no-reply", "newsletter",
   "promotional", "marketing", "offer", "sale", "discount",
   "bulk mail", "mailing list", "click here", "limited time"]

/-- An Outlook Graph message as the adapter reads it; optional fields
model the optional-chaining accesses of the source. -/
structure OutlookMsg where
  id : String
  fromAddress : Option String
  subject : Option String
  receivedDateTime : Option String
  bodyContent : Option String
deriving DecidableEq

/-- isMarketingEmail, Outlook variant: keyword scan over the lowercased
sender, subject and body, then the no-reply sender check on the raw
sender address. -/
def isMarketingEmailOutlook (message : OutlookMsg) : Bool :=
  let fromA := message.fromAddress.getD ""
  let subject := message.subject.getD ""
  let body := message.bodyContent.getD ""
  let combined := lowerChars (fromA.data ++ [' '] ++ subject.data ++ [' '] ++ body.data)
  if marketingKeywords.any (fun kw => containsSub combined kw.data) then true
  else if containsSub fromA.data "noreply".data ||
      containsSub fromA.data "no-reply".data ||
      containsSub fromA.data "donotreply".data then true
  else false

/-- One Gmail header. -/
structure GmailHeader where
  name : String
  value : String
deriving DecidableEq

/-- A Gmail message as the adapter reads it, after payload decoding: its
id, headers and extracted plain-text body. -/
structure GmailMsg where
  id : String
  headers : List GmailHeader
  body : String
deriving DecidableEq

/-- headers.find on a header name. -/
def headerValue (headers : List GmailHeader) (n : String) : Option String :=
  (headers.find? (fun h => h.name == n)).map GmailHeader.value

/-- isMarketingEmail, Gmail variant: a present List-Unsubscribe header
short-circuits; then the keyword scan; then the no-reply sender check. -/
def isMarketingEmailGmail (headers : List GmailHeader) (body : String) : Bool :=
  let fromH := (headerValue headers "From").getD ""
  let subject := (headerValue headers "Subject").getD ""
  let combined := lowerChars (fromH.data ++ [' '] ++ subject.data ++ [' '] ++ body.data)
  if (headers.find? (fun h => h.name == "List-Unsubscribe")).isSome then true
  else if marketingKeywords.any (fun kw => containsSub combined kw.data) then true
  else if containsSub fromH.data "noreply".data ||
      containsSub fromH.data "no-reply".data ||
      containsSub fromH.data "donotreply".data then true
  else false

/-- JS body.replace of the tag regex with the empty string: a match runs
from a left angle bracket to the first right angle bracket after it; a
left bracket with no later right bracket matches nothing, and no further
match can begin after it either. Fuel equal to the input length always
suffices. -/
def stripTagsAux : Nat → List Char → List Char
  | 0, l => l
  | _ + 1, [] => []
  | fuel + 1, c :: rest =>
    if c = '<' then
      if (rest.dropWhile (fun d => d ≠ '>')).isEmpty then c :: rest
      else stripTagsAux fuel (rest.dropWhile (fun d => d ≠ '>')).tail
    else c :: stripTagsAux fuel rest

/-- Strip markup from an HTML body. -/
def stripTags (body : String) : String :=
  String.mk (stripTagsAux body.data.length body.data)

/-- A normalized provider email record. -/
structure ProviderEmail where
  messageId : String
  fromField : String
  subject : String
  date : String
  body : String
  accountEmail : String
deriving DecidableEq

/-- fetchUnreadOutlook: the Graph request is modelled by its outcome; the
catch of any provider error returns the empty list. On success the
messages pass the marketing filter and are normalized. -/
def fetchUnreadOutlook (accountEmail : String)
    (response : Except String (List OutlookMsg)) : List ProviderEmail :=
  match response with
  | .error _ => []
  | .ok messages =>
    (messages.filter (fun m => !(isMarketingEmailOutlook m))).map (fun m =>
      { messageId := m.id
        fromField := m.fromAddress.getD "Unknown"
        subject := m.subject.getD "No Subject"
        date := m.receivedDateTime.getD ""
        body := stripTags (m.bodyContent.getD "")
        accountEmail := accountEmail })

/-- fetchUnreadGmail: the list-and-get interaction is modelled by its
outcome; the catch of any provider error returns the empty list. On
success the messages pass the marketing filter and are normalized. -/
def fetchUnreadGmail (accountEmail : String)
    (interaction : Except String (List GmailMsg)) : List ProviderEmail :=
  match interaction with
  | .error _ => []
  | .ok msgs =>
    (msgs.filter (fun m => !(isMarketingEmailGmail m.headers m.body))).map (fun m =>
      { messageId := m.id
        fromField := (headerValue m.headers "From").getD "Unknown"
        subject := (headerValue m.headers "Subject").getD "No Subject"
        date := (headerValue m.headers "Date").getD ""
        body := m.body
        accountEmail := accountEmail })

/-- The per-account aggregation loop of the sync orchestrator:
concatenate the adapter result of every account, each account carrying
the outcome of its own provider interaction. -/
def aggregateAccounts {M : Type} (adapter : String → Except String M → List ProviderEmail)
    (accounts : List (String × Except String M)) : List ProviderEmail :=
  accounts.foldl (fun acc p => acc ++ adapter p.1 p.2) []

/-! ### src/server.js (the scheduled sync pipeline) -/

/-- A raw Gmail message as the server pipeline consumes it: its id plus
the extracted subject, sender, date and decoded body. -/
structure ServerGmailMsg where
  id : String
  subject : String
  fromHeader : String
  date : String
  body : String
deriving DecidableEq

/-- The list-item object fetchGmailMessages builds per message
(display-only fields, the relative time and the web link, omitted). -/
structure ServerEmail where
  id : String
  sender : String
  subject : String
  summary : String
  body : String
  account : String
deriving DecidableEq

/-- The sender display name: the part before the first angle bracket,
trimmed. -/
def senderName (fromHeader : String) : String :=
  (String.mk (fromHeader.data.takeWhile (fun c => c ≠ '<'))).trim

/-- fetchGmailMessages from src/server.js, instrumented with the number
of generateEmailSummary model invocations it performs: one per fetched
message, unconditionally — no cache is consulted anywhere in
src/server.js (src/store/cache.js is not imported there). The Gmail
interaction is modelled by its outcome and the summary model call by an
oracle; the catch returns the empty list with no completed result. -/
def fetchGmailMessages (summaryOracle : String → String → String)
    (accountEmail : String)
    (interaction : Except String (List ServerGmailMsg)) :
    List ServerEmail × Nat :=
  match interaction with
  | .error _ => ([], 0)
  | .ok msgs =>
    (msgs.map (fun m =>
      { id := m.id
        sender := senderName m.fromHeader
        subject := m.subject
        summary := summaryOracle m.subject m.body
        body := String.mk (m.body.data.take 500)
        account := accountEmail }), msgs.length)

/-- Two consecutive runs of checkAllUsersEmails on one google account
whose unread message list is unchanged: each run calls
fetchGmailMessages afresh, so each run pays the model invocations
again. Returns the total number of model invocations. -/
def twoRunModelCalls (summaryOracle : String → String → String)
    (accountEmail : String) (msgs : List ServerGmailMsg) : Nat :=
  (fetchGmailMessages summaryOracle accountEmail (.ok msgs)).2 +
    (fetchGmailMessages summaryOracle accountEmail (.ok msgs)).2

/-! ## Shared lemmas -/

theorem isPrefixChars_append {needle hay : List Char} (ext : List Char)
    (h : isPrefixChars needle hay = true) :
    isPrefixChars needle (hay ++ ext) = true := by
  induction needle generalizing hay with
  | nil => rfl
  | cons c cs ih =>
    cases hay with
    | nil => simp [isPrefixChars] at h
    | cons d ds =>
      simp only [isPrefixChars, List.cons_append, Bool.and_eq_true] at h ⊢
      exact ⟨h.1, ih h.2⟩

theorem containsSub_nil_needle (hay : List Char) : containsSub hay [] = true := by
  cases hay with
  | nil => rfl
  | cons c rest => simp [containsSub, isPrefixChars]

theorem containsSub_append_left {hay needle : List Char} (ext : List Char)
    (h : containsSub hay needle = true) : containsSub (hay ++ ext) needle = true := by
  induction hay with
  | nil =>
    have hn : needle = [] := by simpa [containsSub, List.isEmpty_iff] using h
    subst hn
    exact containsSub_nil_needle ext
  | cons c rest ih =>
    simp only [containsSub, Bool.or_eq_true] at h
    rcases h with h | h
    · simp only [List.cons_append, containsSub, Bool.or_eq_true]
      exact Or.inl (isPrefixChars_append ext h)
    · simp only [List.cons_append, containsSub, Bool.or_eq_true]
      exact Or.inr (ih h)

theorem containsSub_of_takeWhile {l needle : List Char} {p : Char → Bool}
    (h : containsSub (l.takeWhile p) needle = true) :
    containsSub l needle = true := by
  have h2 := containsSub_append_left (l.dropWhile p) h
  rwa [List.takeWhile_append_dropWhile] at h2

/-! ## Claims -/

/-- Claim C1 (code evaluation at the failing input): the sync pipeline of
src/server.js consults no summary cache, so two runs of
checkAllUsersEmails over one google account with one unchanged message
perform two model invocations in total, not one. -/
theorem claim1_two_runs_two_model_calls :
    twoRunModelCalls (fun _ _ => "a summary") "user@example.com"
      [{ id := "m1", subject := "Hello", fromHeader := "Alice <alice@example.com>",
         date := "Mon, 6 Oct 2025 10:00:00", body := "Hi there" }] = 2 := rfl

/-- Claim C6: the eviction sweep removes exactly the entries strictly
older than thirty days: an entry is kept iff it is in the store and its
age is at most thirty days; an entry aged thirty days plus one second is
removed; an entry aged twenty-nine days and present is retained. -/
theorem claim6_eviction_boundary :
    (∀ (now : Int) (store : SummaryStore) (key : String) (e : CacheEntry),
      ((key, e) ∈ cleanOldCache now store ↔
        (key, e) ∈ store ∧ ¬(now - e.cachedAt > thirtyDaysMs))) ∧
    (∀ (now : Int) (store : SummaryStore) (key : String) (e : CacheEntry),
      e.cachedAt = now - thirtyDaysMs - 1000 →
      (key, e) ∉ cleanOldCache now store) ∧
    (∀ (now : Int) (store : SummaryStore) (key : String) (e : CacheEntry),
      (key, e) ∈ store → e.cachedAt = now - 29 * 24 * 60 * 60 * 1000 →
      (key, e) ∈ cleanOldCache now store) := by
  have hmem : ∀ (now : Int) (store : SummaryStore) (key : String) (e : CacheEntry),
      ((key, e) ∈ cleanOldCache now store ↔
        (key, e) ∈ store ∧ ¬(now - e.cachedAt > thirtyDaysMs)) := by
    intro now store key e
    simp only [cleanOldCache, List.mem_filter, Bool.not_eq_true',
      decide_eq_false_iff_not]
    constructor
    · rintro ⟨h1, h2⟩
      exact ⟨h1, by omega⟩
    · rintro ⟨h1, h2⟩
      exact ⟨h1, by omega⟩
  have hT : thirtyDaysMs = 2592000000 := by norm_num [thirtyDaysMs]
  refine ⟨hmem, ?_, ?_⟩
  · intro now store key e he hmem2
    rcases (hmem now store key e).mp hmem2 with ⟨_, hage⟩
    omega
  · intro now store key e hin he
    exact (hmem now store key e).mpr ⟨hin, by omega⟩

/-- Claim C6 witness: with now = 0, a concrete entry stamped thirty days
and one second in the past is evicted, and one stamped twenty-nine days
in the past is retained. -/
theorem claim6_witness :
    (("k", ⟨⟨[], [], "low", false, "", false, none, none⟩,
        -thirtyDaysMs - 1000⟩) : String × CacheEntry) ∉
      cleanOldCache 0 [("k", ⟨⟨[], [], "low", false, "", false, none, none⟩,
        -thirtyDaysMs - 1000⟩)] ∧
    (("k", ⟨⟨[], [], "low", false, "", false, none, none⟩,
        -(29 * 24 * 60 * 60 * 1000)⟩) : String × CacheEntry) ∈
      cleanOldCache 0 [("k", ⟨⟨[], [], "low", false, "", false, none, none⟩,
        -(29 * 24 * 60 * 60 * 1000)⟩)] :=
  ⟨claim6_eviction_boundary.2.1 0 _ "k" _ (by decide),
   claim6_eviction_boundary.2.2 0 _ "k" _ (by decide) (by decide)⟩

/-- Claim C7: a provider error makes either adapter return the empty
list (the catch absorbs the failure), and in the per-account aggregation
a failed account contributes nothing while a successful account
contributes its full adapter result. -/
theorem claim7_partial_failure_isolation :
    (∀ acct err : String,
      fetchUnreadOutlook acct (.error err) = [] ∧
      fetchUnreadGmail acct (.error err) = []) ∧
    (∀ (acctA errA acctB : String) (msgs : List OutlookMsg),
      aggregateAccounts fetchUnreadOutlook
        [(acctA, .error errA), (acctB, .ok msgs)] =
        fetchUnreadOutlook acctB (.ok msgs)) ∧
    (∀ (acctA errA acctB : String) (msgs : List GmailMsg),
      aggregateAccounts fetchUnreadGmail
        [(acctA, .error errA), (acctB, .ok msgs)] =
        fetchUnreadGmail acctB (.ok msgs)) := by
  refine ⟨fun acct err => ⟨rfl, rfl⟩, ?_, ?_⟩ <;>
    · intros
      simp [aggregateAccounts, fetchUnreadOutlook, fetchUnreadGmail]

/-- Claim C9: read-your-writes: a getCached on the same triple right
after a setCached returns the entry holding exactly the stored result
plus the cachedAt stamp of the put. -/
theorem claim9_read_your_writes (now : Int) (store : SummaryStore)
    (provider messageId body : String) (result : RoutingResult) :
    getCached (setCached now store provider messageId body result)
      provider messageId body = some { result := result, cachedAt := now } := by
  simp [getCached, setCached, List.find?]

/-- Claim C2: when the body exceeds 1500 characters, or when the combined
text holds at least three question marks and no other rules trigger
applies, summarizeEmail never invokes the mini tier: its only model call
goes to the mid tier, and the result is tagged used_mid_tier with the
rules_based escalation reason. -/
theorem claim2_rules_short_circuit
    (callMini callMid : String → String → ModelResult) (subject body : String)
    (h : 1500 < body.length ∨
      (3 ≤ questionCount subject body ∧ body.length ≤ 1500 ∧
        keywordHit subject body = false ∧
        bulletCount body < 5 ∧ numberCount body < 5)) :
    (summarizeEmailT callMini callMid subject body).2 = [Tier.mid] ∧
    Tier.mini ∉ (summarizeEmailT callMini callMid subject body).2 ∧
    (summarizeEmail callMini callMid subject body).used_mid_tier = true ∧
    (summarizeEmail callMini callMid subject body).escalation_reason =
      some "rules_based" := by
  have hrules : rulesBasedComplexityCheck subject body = true := by
    unfold rulesBasedComplexityCheck
    rcases h with h | ⟨hq, hlen, hkw, hb, hn⟩
    · rw [if_pos h]
    · rw [if_neg (by omega), if_pos hq]
  unfold summarizeEmail summarizeEmailT
  rw [hrules]
  simp [mkRouted]

/-- Claim C2 witness: a short body with three question marks and no
other trigger takes the rules-based mid-tier path. -/
theorem claim2_witness :
    (summarizeEmailT (fun _ _ => fallbackResult) (fun _ _ => fallbackResult)
      "q" "a? b? c?").2 = [Tier.mid] ∧
    Tier.mini ∉ (summarizeEmailT (fun _ _ => fallbackResult)
      (fun _ _ => fallbackResult) "q" "a? b? c?").2 ∧
    (summarizeEmail (fun _ _ => fallbackResult) (fun _ _ => fallbackResult)
      "q" "a? b? c?").used_mid_tier = true ∧
    (summarizeEmail (fun _ _ => fallbackResult) (fun _ _ => fallbackResult)
      "q" "a? b? c?").escalation_reason = some "rules_based" :=
  claim2_rules_short_circuit _ _ "q" "a? b? c?" (Or.inr (by decide))

/-- Claim C3: when no rules trigger fires and the mini result requests
the mid tier, summarizeEmail calls mini then mid and returns the
mid-tier result tagged used_mid_tier, with the model_requested
escalation reason and the why of the mini result as model_reason. -/
theorem claim3_model_requested_escalation
    (callMini callMid : String → String → ModelResult) (subject body : String)
    (hr : rulesBasedComplexityCheck subject body = false)
    (hm : (callMini subject body).needs_mid_tier = true) :
    (summarizeEmailT callMini callMid subject body).2 = [Tier.mini, Tier.mid] ∧
    summarizeEmail callMini callMid subject body =
      mkRouted (callMid subject body) true (some "model_requested")
        (some (callMini subject body).why) ∧
    (summarizeEmail callMini callMid subject body).used_mid_tier = true ∧
    (summarizeEmail callMini callMid subject body).escalation_reason =
      some "model_requested" ∧
    (summarizeEmail callMini callMid subject body).model_reason =
      some (callMini subject body).why := by
  unfold summarizeEmail summarizeEmailT
  rw [hr]
  simp [hm, mkRouted]

/-- Claim C3 witness: a plain email whose mini oracle requests
escalation is routed to the mid tier with the mini reason recorded. -/
theorem claim3_witness :
    (summarizeEmailT (fun _ _ => ⟨["m"], [], "med", true, "nuanced"⟩)
      (fun _ _ => fallbackResult) "hi" "ok").2 = [Tier.mini, Tier.mid] ∧
    summarizeEmail (fun _ _ => ⟨["m"], [], "med", true, "nuanced"⟩)
      (fun _ _ => fallbackResult) "hi" "ok" =
      mkRouted fallbackResult true (some "model_requested") (some "nuanced") ∧
    (summarizeEmail (fun _ _ => ⟨["m"], [], "med", true, "nuanced"⟩)
      (fun _ _ => fallbackResult) "hi" "ok").used_mid_tier = true ∧
    (summarizeEmail (fun _ _ => ⟨["m"], [], "med", true, "nuanced"⟩)
      (fun _ _ => fallbackResult) "hi" "ok").escalation_reason =
      some "model_requested" ∧
    (summarizeEmail (fun _ _ => ⟨["m"], [], "med", true, "nuanced"⟩)
      (fun _ _ => fallbackResult) "hi" "ok").model_reason = some "nuanced" :=
  claim3_model_requested_escalation _ _ "hi" "ok" (by decide) rfl

/-- Claim C4: when the transport call or the JSON parse fails, callOpenAI
returns exactly the fallback object (the catch absorbs the failure: the
function is total), and since the fallback does not request the mid
tier, a mini-tier attempt returning it is treated by the router as a
non-escalating low-urgency result. -/
theorem claim4_fallback_absorbed
    (transport : Except String String)
    (parseJson : String → Except String ModelResult)
    (hfail : (∃ e, transport = .error e) ∨
      (∃ c e, transport = .ok c ∧ parseJson c = .error e))
    (callMid : String → String → ModelResult) (subject body : String)
    (hr : rulesBasedComplexityCheck subject body = false) :
    callOpenAI transport parseJson = fallbackResult ∧
    (callOpenAI transport parseJson).needs_mid_tier = false ∧
    summarizeEmail (fun _ _ => callOpenAI transport parseJson) callMid
      subject body = mkRouted fallbackResult false none none ∧
    (summarizeEmail (fun _ _ => callOpenAI transport parseJson) callMid
      subject body).used_mid_tier = false ∧
    (summarizeEmail (fun _ _ => callOpenAI transport parseJson) callMid
      subject body).escalation_reason = none ∧
    (summarizeEmail (fun _ _ => callOpenAI transport parseJson) callMid
      subject body).urgency = "low" := by
  have hfb : callOpenAI transport parseJson = fallbackResult := by
    rcases hfail with ⟨e, he⟩ | ⟨c, e, hc, hp⟩
    · subst he
      rfl
    · subst hc
      simp [callOpenAI, hp]
  refine ⟨hfb, by rw [hfb]; rfl, ?_, ?_, ?_, ?_⟩ <;>
    · unfold summarizeEmail summarizeEmailT
      rw [hr]
      simp [hfb, mkRouted, fallbackResult]

/-- Claim C4 witness: a transport error on a plain email yields the
fallback object and a non-escalating low-urgency routing result. -/
theorem claim4_witness :
    callOpenAI (.error "ECONNRESET") (fun _ => .ok fallbackResult) =
      fallbackResult ∧
    (callOpenAI (.error "ECONNRESET")
      (fun _ => .ok fallbackResult)).needs_mid_tier = false ∧
    summarizeEmail (fun _ _ => callOpenAI (.error "ECONNRESET")
      (fun _ => .ok fallbackResult)) (fun _ _ => fallbackResult) "hi" "ok" =
      mkRouted fallbackResult false none none ∧
    (summarizeEmail (fun _ _ => callOpenAI (.error "ECONNRESET")
      (fun _ => .ok fallbackResult)) (fun _ _ => fallbackResult) "hi"
      "ok").used_mid_tier = false ∧
    (summarizeEmail (fun _ _ => callOpenAI (.error "ECONNRESET")
      (fun _ => .ok fallbackResult)) (fun _ _ => fallbackResult) "hi"
      "ok").escalation_reason = none ∧
    (summarizeEmail (fun _ _ => callOpenAI (.error "ECONNRESET")
      (fun _ => .ok fallbackResult)) (fun _ _ => fallbackResult) "hi"
      "ok").urgency = "low" :=
  claim4_fallback_absorbed (.error "ECONNRESET") (fun _ => .ok fallbackResult)
    (Or.inl ⟨"ECONNRESET", rfl⟩) (fun _ _ => fallbackResult) "hi" "ok" (by decide)

/-- Claim C10: router output invariant: used_mid_tier holds iff the
escalation reason is rules_based or model_requested; the escalation
reason is none exactly when used_mid_tier is false; and model_reason is
present exactly when the escalation reason is model_requested. -/
theorem claim10_router_output_invariant
    (callMini callMid : String → String → ModelResult) (subject body : String) :
    ((summarizeEmail callMini callMid subject body).used_mid_tier = true ↔
      ((summarizeEmail callMini callMid subject body).escalation_reason =
          some "rules_based" ∨
        (summarizeEmail callMini callMid subject body).escalation_reason =
          some "model_requested")) ∧
    ((summarizeEmail callMini callMid subject body).escalation_reason = none ↔
      (summarizeEmail callMini callMid subject body).used_mid_tier = false) ∧
    ((summarizeEmail callMini callMid subject body).model_reason.isSome = true ↔
      (summarizeEmail callMini callMid subject body).escalation_reason =
        some "model_requested") := by
  unfold summarizeEmail summarizeEmailT
  split
  · simp [mkRouted]
  · dsimp only
    split
    · simp [mkRouted]
    · simp [mkRouted]

/-- Claim C8: an email whose sender local part contains noreply,
no-reply or donotreply is classified as marketing by both provider
filters, whatever the subject and body; and a Gmail message carrying a
List-Unsubscribe header is always classified as marketing. -/
theorem claim8_marketing_filter :
    (∀ (m : OutlookMsg) (kw : String),
      kw ∈ (["noreply", "no-reply", "donotreply"] : List String) →
      containsSub ((m.fromAddress.getD "").data.takeWhile (fun c => c ≠ '@'))
        kw.data = true →
      isMarketingEmailOutlook m = true) ∧
    (∀ (headers : List GmailHeader) (body kw : String),
      kw ∈ (["noreply", "no-reply", "donotreply"] : List String) →
      containsSub (((headerValue headers "From").getD "").data.takeWhile
        (fun c => c ≠ '@')) kw.data = true →
      isMarketingEmailGmail headers body = true) ∧
    (∀ (headers : List GmailHeader) (body : String) (h : GmailHeader),
      h ∈ headers → h.name = "List-Unsubscribe" →
      isMarketingEmailGmail headers body = true) := by
  refine ⟨?_, ?_, ?_⟩
  · intro m kw hkw hsub
    have hfrom : containsSub (m.fromAddress.getD "").data kw.data = true :=
      containsSub_of_takeWhile hsub
    simp only [isMarketingEmailOutlook]
    split
    · rfl
    · rw [if_pos]
      simp only [List.mem_cons, List.not_mem_nil, or_false] at hkw
      rcases hkw with h | h | h <;> subst h <;> simp [hfrom]
  · intro headers body kw hkw hsub
    have hfrom : containsSub ((headerValue headers "From").getD "").data
        kw.data = true := containsSub_of_takeWhile hsub
    simp only [isMarketingEmailGmail]
    split
    · rfl
    · split
      · rfl
      · rw [if_pos]
        simp only [List.mem_cons, List.not_mem_nil, or_false] at hkw
        rcases hkw with h | h | h <;> subst h <;> simp [hfrom]
  · intro headers body h hin hname
    unfold isMarketingEmailGmail
    rw [if_pos]
    exact List.find?_isSome.mpr ⟨h, hin, by simp [hname]⟩

/-- Claim C8 witness: a no-reply Outlook sender, a donotreply Gmail
sender and a Gmail List-Unsubscribe header are each classified as
marketing. -/
theorem claim8_witness :
    isMarketingEmailOutlook
      ⟨"1", some "no-reply@example.com", some "Hi", none, some "see you"⟩ = true ∧
    isMarketingEmailGmail [⟨"From", "Bob <donotreply@x.com>"⟩] "see you" = true ∧
    isMarketingEmailGmail [⟨"List-Unsubscribe", "<mailto:u@x>"⟩] "see you" = true :=
  ⟨claim8_marketing_filter.1 _ "no-reply" (by decide) (by decide),
   claim8_marketing_filter.2.1 _ "see you" "donotreply" (by decide) (by decide),
   claim8_marketing_filter.2.2 _ "see you" ⟨"List-Unsubscribe", "<mailto:u@x>"⟩
     (by decide) rfl⟩

/-- The code point of a character is below the Unicode bound. -/
theorem char_toNat_lt (c : Char) : c.toNat < 1114112 := by
  rcases c.valid with h | ⟨h1, h2⟩
  · exact lt_trans h (by norm_num)
  · exact h2

theorem char_toNat_injective : Function.Injective Char.toNat := by
  intro c d h
  apply Char.eq_of_val_eq
  exact UInt32.toNat.inj h

theorem finite_char : Finite Char := by
  apply Finite.of_injective
    (fun c : Char => (⟨c.toNat, char_toNat_lt c⟩ : Fin 1114112))
  intro c d h
  simp only [Fin.mk.injEq] at h
  exact char_toNat_injective h

/-- The body fingerprint has at most sixteen characters. -/
theorem hashBody_data_length_le (b : String) : (hashBody b).data.length ≤ 16 := by
  have h : (hashBody b).data = (bytesToHex (sha256Bytes (strBytes b))).take 16 := rfl
  rw [h, List.length_take]
  exact inf_le_left

/-- Claim C5 counterexample: it is false that changing the body (with
provider and messageId fixed) always changes the key: the fingerprint
ranges over strings of at most sixteen characters, a finite set, while
bodies are infinitely many, so two distinct bodies must share a
fingerprint and hence a key. -/
theorem claim5_counterexample :
    ¬ (∀ (provider messageId b1 b2 : String), b1 ≠ b2 →
        getCacheKey provider messageId b1 ≠ getCacheKey provider messageId b2) := by
  intro hclaim
  have hBody : Function.Injective hashBody := by
    intro b1 b2 h
    by_contra hne
    exact hclaim "p" "m" b1 b2 hne (by unfold getCacheKey; rw [h])
  have hg : Function.Injective
      (fun s : String => (fun i : Fin 17 => (hashBody s).data.get? i.val)) := by
    intro s1 s2 h
    apply hBody
    apply String.ext
    apply List.ext_get?
    intro n
    by_cases hn : n < 17
    · exact congrFun h ⟨n, hn⟩
    · rw [List.get?_eq_none.mpr (le_trans (hashBody_data_length_le s1) (by omega)),
        List.get?_eq_none.mpr (le_trans (hashBody_data_length_le s2) (by omega))]
  haveI : Finite Char := finite_char
  haveI : Fintype Char := Fintype.ofFinite Char
  haveI : Finite String := Finite.of_injective _ hg
  exact not_finite String

/-- Claim C5 (amended): getCacheKey is pure with the stated
provider-colon-messageId-colon-fingerprint shape, the fingerprint being
the first sixteen hex characters of the SHA-256 digest of the body;
changing the provider or the messageId (the other components fixed)
changes the key; and changing the body changes the key whenever the
fingerprint of the body changes — which, the fingerprint being only
sixteen hex characters, cannot hold for every pair of distinct bodies. -/
theorem claim5_amended :
    (∀ provider messageId body : String,
      getCacheKey provider messageId body =
        getCacheKey provider messageId body ∧
      getCacheKey provider messageId body =
        provider ++ ":" ++ messageId ++ ":" ++
          String.mk ((bytesToHex (sha256Bytes (strBytes body))).take 16)) ∧
    (∀ p1 p2 m b : String, p1 ≠ p2 → getCacheKey p1 m b ≠ getCacheKey p2 m b) ∧
    (∀ p m1 m2 b : String, m1 ≠ m2 → getCacheKey p m1 b ≠ getCacheKey p m2 b) ∧
    (∀ p m b1 b2 : String, hashBody b1 ≠ hashBody b2 →
      getCacheKey p m b1 ≠ getCacheKey p m b2) := by
  refine ⟨fun provider messageId body => ⟨rfl, rfl⟩, ?_, ?_, ?_⟩
  · intro p1 p2 m b hne hk
    apply hne
    have hd := congrArg String.data hk
    simp only [getCacheKey, String.data_append, List.append_assoc] at hd
    exact String.ext (List.append_cancel_right hd)
  · intro p m1 m2 b hne hk
    apply hne
    have hd := congrArg String.data hk
    simp only [getCacheKey, String.data_append, List.append_assoc] at hd
    exact String.ext
      (List.append_cancel_right (List.append_cancel_left (List.append_cancel_left hd)))
  · intro p m b1 b2 hne hk
    apply hne
    have hd := congrArg String.data hk
    simp only [getCacheKey, String.data_append, List.append_assoc] at hd
    exact String.ext
      (List.append_cancel_left (List.append_cancel_left
        (List.append_cancel_left (List.append_cancel_left hd))))

set_option maxRecDepth 40000 in
/-- Claim C5 witness: concrete provider, messageId and body changes that
change the key, the body pair exhibiting distinct fingerprints. -/
theorem claim5_witness :
    getCacheKey "google" "m1" "Hello" ≠ getCacheKey "outlook" "m1" "Hello" ∧
    getCacheKey "google" "m1" "Hello" ≠ getCacheKey "google" "m2" "Hello" ∧
    getCacheKey "google" "m1" "Hello" ≠ getCacheKey "google" "m1" "Hi" :=
  ⟨claim5_amended.2.1 "google" "outlook" "m1" "Hello" (by decide),
   claim5_amended.2.2.1 "google" "m1" "m2" "Hello" (by decide),
   claim5_amended.2.2.2 "google" "m1" "Hello" "Hi" (by decide)⟩
